import Mathlib

/-
Verification of the green-grid microgrid simulator (src/Simulation/green_grid_sim.py).

The per-timestep energy-balance core is embedded over ℚ.  Python floats become
exact rationals; the charge/discharge efficiency `ETA_CHARGE = ETA_DISCHARGE =
math.sqrt(ROUND_TRIP)` is irrational for the default `ROUND_TRIP = 0.9`, so the
configuration carries `eta` as a separate field, constrained in theorems by
rational brackets of the square root when a concrete value matters.
The stochastic samplers (`sample_load_kw`, `sample_cloud_coverage`,
`maybe_inverter_failure`) draw from Python's module-global `random`; their
outputs enter the dispatch core only through `solar_kw`, `load_kw` and the
inverter availability flag, which the embedded `step` therefore takes as inputs.

Python's builtin `min(a, b)` / `max(a, b)` are embedded as the if-based
`rmin` / `rmax` below (definitionally Python's semantics, and kernel-reducible
on ℚ), proved equal to Mathlib's `min` / `max` for use in proofs.
-/

namespace GreenGrid

/-- Python's `min(a, b)`: `a` if `a <= b` else `b`. -/
def rmin (a b : ℚ) : ℚ := if a ≤ b then a else b

/-- Python's `max(a, b)`: `a` if `b <= a` else `b`. -/
def rmax (a b : ℚ) : ℚ := if b ≤ a then a else b

/-- Static configuration, mirroring the module-level constants of
`green_grid_sim.py` (lines 10-34) that the dispatch core reads:
`BATTERY_CAP_KWH`, `ROUND_TRIP`, `ETA_CHARGE = ETA_DISCHARGE = sqrt(ROUND_TRIP)`
(kept abstract as `eta`), `BATTERY_MIN_SOC_FRAC`, `GRID_EXPORT_LIMIT`,
`INVERTER_MAX_KW`. -/
structure Cfg where
  batteryCapKwh : ℚ
  roundTrip : ℚ
  eta : ℚ
  minSocFrac : ℚ
  gridExportLimit : ℚ
  inverterMaxKw : ℚ
deriving DecidableEq, Repr

/-- Result of `_apply_strategy_surplus`: the returned triple
`(grid_export_kwh, battery_charged_kwh, curtailed_kwh)` together with the
mutated fields `self.battery_soc`, `self.month_exported_kwh` and the
event types logged inside the call. -/
structure SurplusOut where
  grid_export_kwh : ℚ
  battery_charged_kwh : ℚ
  curtailed_kwh : ℚ
  battery_soc : ℚ
  month_exported_kwh : ℚ
  events : List String
deriving DecidableEq, Repr

instance : Inhabited SurplusOut :=
  ⟨{ grid_export_kwh := 0, battery_charged_kwh := 0, curtailed_kwh := 0,
     battery_soc := 0, month_exported_kwh := 0, events := [] }⟩

/-- The `load_priority` arm of `_apply_strategy_surplus`
(green_grid_sim.py lines 138-160): charge the battery first, then export
leftover up to the rate limit and the remaining monthly quota, curtailing
the rest.  `space_kwh` and `remaining_monthly_kwh` are the values the method
computes before branching (lines 126-136), recomputed here per arm. -/
def load_priority_surplus (c : Cfg) (battery_soc month_exported_kwh net_kwh dt_h : ℚ) :
    SurplusOut :=
  let space_kwh := c.batteryCapKwh - battery_soc
  let remaining_monthly_kwh := rmax 0 (c.gridExportLimit - month_exported_kwh)
  let charge_input := rmin net_kwh (space_kwh / c.eta)
  let stored_kwh := charge_input * c.eta
  let soc1 := battery_soc + stored_kwh
  let leftover_kwh := net_kwh - charge_input
  if 1e-9 < leftover_kwh then
    if 0 < remaining_monthly_kwh then
      let export_kw_possible :=
        rmin (if 0 < dt_h then leftover_kwh / dt_h else 0) c.gridExportLimit
      let export_kwh_possible := export_kw_possible * dt_h
      let export_kwh := rmin export_kwh_possible remaining_monthly_kwh
      { grid_export_kwh := export_kwh, battery_charged_kwh := stored_kwh,
        curtailed_kwh := leftover_kwh - export_kwh, battery_soc := soc1,
        month_exported_kwh := month_exported_kwh + export_kwh, events := [] }
    else
      { grid_export_kwh := 0, battery_charged_kwh := stored_kwh,
        curtailed_kwh := leftover_kwh, battery_soc := soc1,
        month_exported_kwh := month_exported_kwh,
        events := if 0.01 < leftover_kwh then ["SOLAR CURTAILMENT"] else [] }
  else
    { grid_export_kwh := 0, battery_charged_kwh := stored_kwh,
      curtailed_kwh := 0, battery_soc := soc1,
      month_exported_kwh := month_exported_kwh, events := [] }

/-- The `charge_priority` arm of `_apply_strategy_surplus`
(green_grid_sim.py lines 162-183): identical charging, but export of the
leftover is attempted only when the (updated) SoC has reached 99% of
capacity; otherwise the `if` falls through and the leftover is silently
dropped from the returned triple. -/
def charge_priority_surplus (c : Cfg) (battery_soc month_exported_kwh net_kwh dt_h : ℚ) :
    SurplusOut :=
  let space_kwh := c.batteryCapKwh - battery_soc
  let remaining_monthly_kwh := rmax 0 (c.gridExportLimit - month_exported_kwh)
  let charge_input := rmin net_kwh (space_kwh / c.eta)
  let stored_kwh := charge_input * c.eta
  let soc1 := battery_soc + stored_kwh
  let leftover_kwh := net_kwh - charge_input
  if 1e-9 < leftover_kwh ∧ c.batteryCapKwh * 0.99 ≤ soc1 then
    if 0 < remaining_monthly_kwh then
      let export_kw_possible :=
        rmin (if 0 < dt_h then leftover_kwh / dt_h else 0) c.gridExportLimit
      let export_kwh_possible := export_kw_possible * dt_h
      let export_kwh := rmin export_kwh_possible remaining_monthly_kwh
      { grid_export_kwh := export_kwh, battery_charged_kwh := stored_kwh,
        curtailed_kwh := leftover_kwh - export_kwh, battery_soc := soc1,
        month_exported_kwh := month_exported_kwh + export_kwh, events := [] }
    else
      { grid_export_kwh := 0, battery_charged_kwh := stored_kwh,
        curtailed_kwh := leftover_kwh, battery_soc := soc1,
        month_exported_kwh := month_exported_kwh,
        events := if 0.01 < leftover_kwh then ["SOLAR CURTAILMENT"] else [] }
  else
    { grid_export_kwh := 0, battery_charged_kwh := stored_kwh,
      curtailed_kwh := 0, battery_soc := soc1,
      month_exported_kwh := month_exported_kwh, events := [] }

/-- The `produce_priority` arm of `_apply_strategy_surplus`
(green_grid_sim.py lines 185-213): if any monthly quota remains, export up
to `GRID_EXPORT_LIMIT * dt_h` first (the exported amount is NOT capped by
`remaining_monthly_kwh`), routing any residual to charging; with the quota
exhausted, charge instead and curtail the residual. -/
def produce_priority_surplus (c : Cfg) (battery_soc month_exported_kwh net_kwh dt_h : ℚ) :
    SurplusOut :=
  let space_kwh := c.batteryCapKwh - battery_soc
  let remaining_monthly_kwh := rmax 0 (c.gridExportLimit - month_exported_kwh)
  let max_export_kwh := c.gridExportLimit * dt_h
  if 0 < remaining_monthly_kwh then
    if max_export_kwh < net_kwh then
      let remaining := net_kwh - max_export_kwh
      let charge_input := rmin remaining (space_kwh / c.eta)
      let stored_kwh := charge_input * c.eta
      { grid_export_kwh := max_export_kwh, battery_charged_kwh := stored_kwh,
        curtailed_kwh := remaining - charge_input,
        battery_soc := battery_soc + stored_kwh,
        month_exported_kwh := month_exported_kwh + max_export_kwh, events := [] }
    else
      { grid_export_kwh := net_kwh, battery_charged_kwh := 0,
        curtailed_kwh := 0, battery_soc := battery_soc,
        month_exported_kwh := month_exported_kwh + net_kwh, events := [] }
  else
    let charge_input := rmin net_kwh (space_kwh / c.eta)
    let stored_kwh := charge_input * c.eta
    let curtailed_kwh := net_kwh - charge_input
    { grid_export_kwh := 0, battery_charged_kwh := stored_kwh,
      curtailed_kwh := curtailed_kwh, battery_soc := battery_soc + stored_kwh,
      month_exported_kwh := month_exported_kwh,
      events := if 0.01 < curtailed_kwh then ["SOLAR CURTAILMENT"] else [] }

/-- Translation of `SimpleGreenGrid._apply_strategy_surplus`
(green_grid_sim.py lines 121-218): dispatch on the strategy string, with the
unknown-strategy `raise ValueError` becoming `Except.error`. -/
def apply_strategy_surplus (c : Cfg) (strategy : String)
    (battery_soc month_exported_kwh net_kwh dt_h : ℚ) : Except String SurplusOut :=
  if strategy = "load_priority" then
    .ok (load_priority_surplus c battery_soc month_exported_kwh net_kwh dt_h)
  else if strategy = "charge_priority" then
    .ok (charge_priority_surplus c battery_soc month_exported_kwh net_kwh dt_h)
  else if strategy = "produce_priority" then
    .ok (produce_priority_surplus c battery_soc month_exported_kwh net_kwh dt_h)
  else
    .error ("Unknown strategy: " ++ strategy)

/-- Result of the deficit branch of `SimpleGreenGrid.step`
(green_grid_sim.py lines 268-293): the discharge, grid import, unmet-load
accounting and the `UNMET LOAD` event guard.  `battery_soc` is the SoC after
`self.battery_soc -= discharge_needed_kwh`, before the post-step clamp. -/
structure DeficitOut where
  battery_soc : ℚ
  battery_discharged_kwh : ℚ
  grid_import_kwh : ℚ
  unmet_load_kwh : ℚ
  events : List String
deriving DecidableEq, Repr

/-- Translation of the deficit (`else`) branch of `SimpleGreenGrid.step`
(lines 268-293).  The code first sets `unmet_load_kwh = remaining_need_kwh -
grid_import_kwh` with `grid_import_kwh = 0`, then overwrites both when
`remaining_need_kwh > 1e-9`; the two conditional lets below are that
assignment sequence in functional form. -/
def apply_deficit (c : Cfg) (battery_soc net_kwh : ℚ) : DeficitOut :=
  let need := -net_kwh
  let available_kwh := rmax 0 (battery_soc - c.batteryCapKwh * c.minSocFrac)
  let discharge_needed_kwh :=
    if 0 < c.roundTrip then rmin (need / c.eta) available_kwh else 0
  let supplied_kwh := if 0 < c.roundTrip then discharge_needed_kwh * c.eta else 0
  let remaining_need_kwh := need - supplied_kwh
  let grid_import_kwh := if 1e-9 < remaining_need_kwh then remaining_need_kwh else 0
  let unmet_load_kwh := if 1e-9 < remaining_need_kwh then 0 else remaining_need_kwh
  { battery_soc := battery_soc - discharge_needed_kwh
    battery_discharged_kwh := discharge_needed_kwh
    grid_import_kwh := grid_import_kwh
    unmet_load_kwh := unmet_load_kwh
    events := if 1e-9 < unmet_load_kwh then ["UNMET LOAD"] else [] }

/-- The mutable `SimpleGreenGrid` fields the energy-balance step reads and
writes (battery, monthly export accumulator, cycle edge flags, SoC extrema). -/
structure StepState where
  battery_soc : ℚ
  month_exported_kwh : ℚ
  last_was_charging : Bool
  last_was_discharging : Bool
  peak_battery_soc : ℚ
  min_battery_soc : ℚ
deriving DecidableEq, Repr

instance : Inhabited StepState :=
  ⟨{ battery_soc := 0, month_exported_kwh := 0, last_was_charging := false,
     last_was_discharging := false, peak_battery_soc := 0, min_battery_soc := 0 }⟩

/-- Python's `round(x, 6)` used at the log-record boundary
(green_grid_sim.py lines 325-348).  Python rounds ties to even while
Mathlib's `round` rounds ties up; every value this development rounds is
far from any tie, where the two rules agree. -/
def pyRound6 (x : ℚ) : ℚ := (round (x * 10 ^ 6) : ℚ) / 10 ^ 6

/-- Outputs of one `SimpleGreenGrid.step` call: the new object state, the
event types appended during the step, and the per-step flow quantities
(raw, plus the rounded `unmet_load_kwh` as written to the log record). -/
structure StepOut where
  state : StepState
  events : List String
  net_kwh : ℚ
  battery_charged_kwh : ℚ
  battery_discharged_kwh : ℚ
  grid_import_kwh : ℚ
  grid_export_kwh : ℚ
  curtailed_kwh : ℚ
  unmet_load_kwh : ℚ
  logged_unmet_load_kwh : ℚ
deriving DecidableEq, Repr

instance : Inhabited StepOut :=
  ⟨{ state := default, events := [], net_kwh := 0, battery_charged_kwh := 0,
     battery_discharged_kwh := 0, grid_import_kwh := 0, grid_export_kwh := 0,
     curtailed_kwh := 0, unmet_load_kwh := 0, logged_unmet_load_kwh := 0 }⟩

/-- Post-branch bookkeeping of `SimpleGreenGrid.step`
(green_grid_sim.py lines 296-348): SoC clamp, peak/min trackers with
`BATTERY FULL`/`BATTERY LOW` events, charge/discharge cycle edge events,
the SoC-direction `WARNING` sanity check, and record construction. -/
def post_step (c : Cfg) (st : StepState) (battery_before net_kwh soc_raw
    month_exported battery_charged_kwh battery_discharged_kwh grid_import_kwh
    grid_export_kwh curtailed_kwh unmet_load_kwh : ℚ)
    (branch_events : List String) : StepOut :=
  let battery_soc := rmin (rmax 0 soc_raw) c.batteryCapKwh
  let full_events :=
    if st.peak_battery_soc < battery_soc ∧ c.batteryCapKwh * 0.99 ≤ battery_soc
    then ["BATTERY FULL"] else []
  let peak := if st.peak_battery_soc < battery_soc then battery_soc else st.peak_battery_soc
  let low_events :=
    if battery_soc < st.min_battery_soc ∧
       battery_soc ≤ c.batteryCapKwh * c.minSocFrac * 1.01
    then ["BATTERY LOW"] else []
  let minsoc := if battery_soc < st.min_battery_soc then battery_soc else st.min_battery_soc
  let is_charging : Bool := decide (1e-9 < battery_charged_kwh)
  let is_discharging : Bool := decide (1e-9 < battery_discharged_kwh)
  let charge_events :=
    if is_charging && !st.last_was_charging then ["BATTERY CHARGE START"] else []
  let discharge_events :=
    if is_discharging && !st.last_was_discharging then ["BATTERY DISCHARGE START"] else []
  let warning_events :=
    if net_kwh < -1e-9 ∧ battery_before + 1e-6 < battery_soc then ["WARNING"] else []
  { state := { battery_soc := battery_soc, month_exported_kwh := month_exported,
               last_was_charging := is_charging, last_was_discharging := is_discharging,
               peak_battery_soc := peak, min_battery_soc := minsoc }
    events := branch_events ++ full_events ++ low_events ++ charge_events ++
              discharge_events ++ warning_events
    net_kwh := net_kwh
    battery_charged_kwh := battery_charged_kwh
    battery_discharged_kwh := battery_discharged_kwh
    grid_import_kwh := grid_import_kwh
    grid_export_kwh := grid_export_kwh
    curtailed_kwh := curtailed_kwh
    unmet_load_kwh := unmet_load_kwh
    logged_unmet_load_kwh := pyRound6 unmet_load_kwh }

/-- The branch-and-bookkeeping part of `SimpleGreenGrid.step`
(green_grid_sim.py lines 262-348), taking the already computed
`net_kwh = energy_gen_kwh - energy_load_kwh` of line 262. -/
def step_core (c : Cfg) (strategy : String) (st : StepState)
    (net_kwh dt_h : ℚ) : Except String StepOut :=
  if 0 < net_kwh then
    match apply_strategy_surplus c strategy st.battery_soc st.month_exported_kwh
        net_kwh dt_h with
    | .error e => .error e
    | .ok o =>
      .ok (post_step c st st.battery_soc net_kwh o.battery_soc o.month_exported_kwh
        o.battery_charged_kwh 0 0 o.grid_export_kwh o.curtailed_kwh 0 o.events)
  else
    let d := apply_deficit c st.battery_soc net_kwh
    .ok (post_step c st st.battery_soc net_kwh d.battery_soc st.month_exported_kwh
      0 d.battery_discharged_kwh d.grid_import_kwh 0 0 d.unmet_load_kwh d.events)

/-- Translation of the energy-balance core of `SimpleGreenGrid.step`
(green_grid_sim.py lines 247-348): the inverter clipping of the sampled
`solar_kw`/`load_kw` (lines 250-252) feeding the surplus/deficit branch and
the post-step bookkeeping.  The stochastic samples and the daily
cloud/failure update are external inputs (`solar_kw`, `load_kw`,
`inverter_is_ok`); the day-boundary quota reset (lines 231-241) is
`daily_quota_reset` below. -/
def step (c : Cfg) (strategy : String) (st : StepState)
    (solar_kw load_kw : ℚ) (inverter_is_ok : Bool) (dt_h : ℚ) :
    Except String StepOut :=
  let usable_solar_kw := if inverter_is_ok then rmin solar_kw c.inverterMaxKw else 0
  let energy_gen_kwh := usable_solar_kw * dt_h
  let energy_load_kwh := load_kw * dt_h
  step_core c strategy st (energy_gen_kwh - energy_load_kwh) dt_h

/-- Day-boundary export-quota reset of `SimpleGreenGrid.step`
(green_grid_sim.py lines 231-241): at every midnight timestep, when the day
index is a positive multiple of `MONTH_LENGTH_DAYS`, zero the monthly export
accumulator, bump the month index and emit `MONTH RESET`. -/
def daily_quota_reset (monthLengthDays : ℕ) (t_min : ℕ)
    (month_exported_kwh : ℚ) (month_index : ℕ) : ℚ × ℕ × List String :=
  if t_min % (24 * 60) = 0 then
    let day_index := t_min / (24 * 60)
    if 0 < day_index ∧ day_index % monthLengthDays = 0 then
      (0, month_index + 1, ["MONTH RESET"])
    else (month_exported_kwh, month_index, [])
  else (month_exported_kwh, month_index, [])

/-- Run-level state for folding `step` over consecutive timesteps as
`SimpleGreenGrid.run` does (green_grid_sim.py lines 350-354): the per-step
state plus the month index and the virtual clock in minutes. -/
structure RunState where
  s : StepState
  month_index : ℕ
  t_min : ℕ
deriving DecidableEq, Repr

instance : Inhabited RunState := ⟨{ s := default, month_index := 0, t_min := 0 }⟩

/-- One scheduler iteration: the day-boundary quota reset followed by the
energy-balance step, then the clock advances by `dt_min` (the
`yield self.env.timeout(dt_min)` of `run`). -/
def full_step (c : Cfg) (monthLengthDays : ℕ) (strategy : String) (dt_min : ℕ)
    (rs : RunState) (solar_kw load_kw : ℚ) (inverter_is_ok : Bool) :
    Except String RunState :=
  let r := daily_quota_reset monthLengthDays rs.t_min rs.s.month_exported_kwh rs.month_index
  let st1 := { rs.s with month_exported_kwh := r.1 }
  match step c strategy st1 solar_kw load_kw inverter_is_ok ((dt_min : ℚ) / 60) with
  | .error e => .error e
  | .ok o => .ok { s := o.state, month_index := r.2.1, t_min := rs.t_min + dt_min }

/-- Fold of `full_step` over a list of per-step environment samples
`(solar_kw, load_kw, inverter_is_ok)`, as `SimpleGreenGrid.run` iterates
`step` over the horizon. -/
def run_steps (c : Cfg) (monthLengthDays : ℕ) (strategy : String) (dt_min : ℕ) :
    RunState → List (ℚ × ℚ × Bool) → Except String RunState
  | rs, [] => .ok rs
  | rs, (solar, load, ok) :: rest =>
    match full_step c monthLengthDays strategy dt_min rs solar load ok with
    | .error e => .error e
    | .ok rs1 => run_steps c monthLengthDays strategy dt_min rs1 rest

/-- Whether an `Except` computation succeeded. -/
def okB {ε α : Type} : Except ε α → Bool
  | .ok _ => true
  | .error _ => false

/-- The payload of a successful `Except` computation, defaulting on error. -/
def getD {ε α : Type} [Inhabited α] : Except ε α → α
  | .ok a => a
  | .error _ => default

/-- Modelled from the spec's words (§8, first testable property): the
energy-balance residual written exactly as the claim writes it,
`net_kwh - (charged - discharged + import - export - curtailed)`, in
absolute value; 0 on an errored step.  Kept separate from the code-derived
balance so the two can be compared. -/
def spec_claimed_balance_gap (r : Except String StepOut) : ℚ :=
  match r with
  | .ok o => |o.net_kwh - (o.battery_charged_kwh - o.battery_discharged_kwh +
      o.grid_import_kwh - o.grid_export_kwh - o.curtailed_kwh)|
  | .error _ => 0

/-- Configuration used for the C1 failing input: default battery and quota
constants (`GRID_EXPORT_LIMIT = 20` doubles as the monthly cap, line 133)
with a 50 kW inverter so a 16 kW solar sample passes the clipping. -/
def cfgC1 : Cfg :=
  { batteryCapKwh := 5, roundTrip := 0.9, eta := 0.94868, minSocFrac := 0.05,
    gridExportLimit := 20, inverterMaxKw := 50 }

/-- Initial run state for the C1 failing input: fresh month, battery at 50%. -/
def initC1 : RunState :=
  { s := { battery_soc := 2.5, month_exported_kwh := 0, last_was_charging := false,
           last_was_discharging := false, peak_battery_soc := 2.5, min_battery_soc := 2.5 },
    month_index := 0, t_min := 0 }

/-- Environment samples for the C1 failing input: three consecutive
half-hour steps of 16 kW solar and zero load (net +8 kWh each). -/
def samplesC1 : List (ℚ × ℚ × Bool) := [(16, 0, true), (16, 0, true), (16, 0, true)]

/-- Configuration for the C2 counterexample: `ROUND_TRIP = 1.0`, so
`eta = sqrt 1 = 1` exactly. -/
def cfgC2 : Cfg :=
  { batteryCapKwh := 5, roundTrip := 1, eta := 1, minSocFrac := 0.05,
    gridExportLimit := 20, inverterMaxKw := 4 }

/-- Step state for the C2 counterexample: battery barely above the usable
floor, so a deficit step discharges partially and imports the rest. -/
def stC2 : StepState :=
  { battery_soc := 0.6, month_exported_kwh := 0, last_was_charging := false,
    last_was_discharging := false, peak_battery_soc := 0.6, min_battery_soc := 0.6 }

/-- Configuration for the C4 counterexample (default constants). -/
def cfgC4 : Cfg :=
  { batteryCapKwh := 5, roundTrip := 0.9, eta := 0.94868, minSocFrac := 0.05,
    gridExportLimit := 20, inverterMaxKw := 4 }

/-- Step state for the C4 counterexample and witness. -/
def stC4 : StepState :=
  { battery_soc := 2.5, month_exported_kwh := 0, last_was_charging := false,
    last_was_discharging := false, peak_battery_soc := 2.5, min_battery_soc := 2.5 }

/-- Configuration for the C8 scenario witness: `ROUND_TRIP = 0.9` with the
rational `eta = 0.948685`, which lies in the bracket
`(0.94868, 0.94869)` that contains `sqrt 0.9`
(`0.94868^2 = 0.8999937424 < 0.9 < 0.9000127161 = 0.94869^2`); unlimited
export is modelled by a huge `GRID_EXPORT_LIMIT`. -/
def cfgC8 : Cfg :=
  { batteryCapKwh := 5, roundTrip := 0.9, eta := 0.948685, minSocFrac := 0.05,
    gridExportLimit := 1000000, inverterMaxKw := 4 }

/-- Configuration for the C7 witness: export rate limit of 0 kW. -/
def cfgC7 : Cfg :=
  { batteryCapKwh := 5, roundTrip := 0.9, eta := 0.94868, minSocFrac := 0.05,
    gridExportLimit := 0, inverterMaxKw := 4 }

/-- Step state for the C9 and C10 witnesses: battery at the usable floor. -/
def stC9 : StepState :=
  { battery_soc := 0.25, month_exported_kwh := 0, last_was_charging := false,
    last_was_discharging := false, peak_battery_soc := 0.25, min_battery_soc := 0.25 }

end GreenGrid

namespace GreenGrid

/-- `rmin` is Mathlib's `min`. -/
theorem rmin_eq_min (a b : ℚ) : rmin a b = min a b := by
  simp [rmin, min_def]

/-- `rmax` is Mathlib's `max`. -/
theorem rmax_eq_max (a b : ℚ) : rmax a b = max a b := by
  rcases le_total a b with h | h
  · rcases eq_or_lt_of_le h with rfl | hlt
    · simp [rmax]
    · rw [rmax, if_neg (not_le.2 hlt), max_eq_right h]
  · rw [rmax, if_pos h, max_eq_left h]

/-- Projection: `post_step` writes the clamp `min (max 0 soc_raw) cap` into
the new state, line 298 of the source. -/
theorem post_step_soc (c : Cfg) (st : StepState)
    (b n sr m ch dis imp ex cu un : ℚ) (ev : List String) :
    (post_step c st b n sr m ch dis imp ex cu un ev).state.battery_soc =
      rmin (rmax 0 sr) c.batteryCapKwh := rfl

/-- Projection: `post_step` records the monthly accumulator unchanged. -/
theorem post_step_month (c : Cfg) (st : StepState)
    (b n sr m ch dis imp ex cu un : ℚ) (ev : List String) :
    (post_step c st b n sr m ch dis imp ex cu un ev).state.month_exported_kwh = m := rfl

/-- Projection: `post_step` records the step's net energy unchanged. -/
theorem post_step_net (c : Cfg) (st : StepState)
    (b n sr m ch dis imp ex cu un : ℚ) (ev : List String) :
    (post_step c st b n sr m ch dis imp ex cu un ev).net_kwh = n := rfl

/-- Projection: `post_step` records the charged energy unchanged. -/
theorem post_step_charged (c : Cfg) (st : StepState)
    (b n sr m ch dis imp ex cu un : ℚ) (ev : List String) :
    (post_step c st b n sr m ch dis imp ex cu un ev).battery_charged_kwh = ch := rfl

/-- Projection: `post_step` records the discharged energy unchanged. -/
theorem post_step_discharged (c : Cfg) (st : StepState)
    (b n sr m ch dis imp ex cu un : ℚ) (ev : List String) :
    (post_step c st b n sr m ch dis imp ex cu un ev).battery_discharged_kwh = dis := rfl

/-- Projection: `post_step` records the grid import unchanged. -/
theorem post_step_import (c : Cfg) (st : StepState)
    (b n sr m ch dis imp ex cu un : ℚ) (ev : List String) :
    (post_step c st b n sr m ch dis imp ex cu un ev).grid_import_kwh = imp := rfl

/-- Projection: `post_step` records the grid export unchanged. -/
theorem post_step_export (c : Cfg) (st : StepState)
    (b n sr m ch dis imp ex cu un : ℚ) (ev : List String) :
    (post_step c st b n sr m ch dis imp ex cu un ev).grid_export_kwh = ex := rfl

/-- Projection: `post_step` records the curtailed energy unchanged. -/
theorem post_step_curtailed (c : Cfg) (st : StepState)
    (b n sr m ch dis imp ex cu un : ℚ) (ev : List String) :
    (post_step c st b n sr m ch dis imp ex cu un ev).curtailed_kwh = cu := rfl

/-- Projection: `post_step` records the raw unmet load unchanged. -/
theorem post_step_unmet (c : Cfg) (st : StepState)
    (b n sr m ch dis imp ex cu un : ℚ) (ev : List String) :
    (post_step c st b n sr m ch dis imp ex cu un ev).unmet_load_kwh = un := rfl

/-- Projection: the log record rounds the unmet load to six decimals. -/
theorem post_step_logged_unmet (c : Cfg) (st : StepState)
    (b n sr m ch dis imp ex cu un : ℚ) (ev : List String) :
    (post_step c st b n sr m ch dis imp ex cu un ev).logged_unmet_load_kwh =
      pyRound6 un := rfl

/-- `step` is `step_core` applied to the net energy of lines 250-262. -/
theorem step_as_core (c : Cfg) (strategy : String) (st : StepState)
    (solar_kw load_kw : ℚ) (inverter_is_ok : Bool) (dt_h : ℚ) :
    step c strategy st solar_kw load_kw inverter_is_ok dt_h =
      step_core c strategy st
        ((if inverter_is_ok then rmin solar_kw c.inverterMaxKw else 0) * dt_h
          - load_kw * dt_h) dt_h := rfl

/-- Membership in a conditional singleton event list forces the guard. -/
theorem mem_ite_singleton {P : Prop} [Decidable P] {s x : String}
    (h : x ∈ (if P then [s] else ([] : List String))) : P ∧ x = s := by
  by_cases hP : P
  · refine ⟨hP, ?_⟩
    rw [if_pos hP] at h
    simpa using h
  · rw [if_neg hP] at h
    simp at h

/-- Anatomy of the event list produced by `post_step`: any event is either a
branch event or one of the five bookkeeping events, and a `WARNING` can only
appear when the SoC-direction guard of line 315 holds. -/
theorem mem_post_step_events (c : Cfg) (st : StepState)
    (b n sr m ch dis imp ex cu un : ℚ) (ev : List String) {x : String}
    (h : x ∈ (post_step c st b n sr m ch dis imp ex cu un ev).events) :
    x ∈ ev ∨ x = "BATTERY FULL" ∨ x = "BATTERY LOW" ∨
    x = "BATTERY CHARGE START" ∨ x = "BATTERY DISCHARGE START" ∨
    (x = "WARNING" ∧ n < -1e-9 ∧ b + 1e-6 < rmin (rmax 0 sr) c.batteryCapKwh) := by
  have h' : x ∈ ev ++
      ((if st.peak_battery_soc < rmin (rmax 0 sr) c.batteryCapKwh ∧
          c.batteryCapKwh * 0.99 ≤ rmin (rmax 0 sr) c.batteryCapKwh
        then ["BATTERY FULL"] else []) ++
       ((if rmin (rmax 0 sr) c.batteryCapKwh < st.min_battery_soc ∧
           rmin (rmax 0 sr) c.batteryCapKwh ≤ c.batteryCapKwh * c.minSocFrac * 1.01
         then ["BATTERY LOW"] else []) ++
        ((if decide (1e-9 < ch) && !st.last_was_charging
          then ["BATTERY CHARGE START"] else []) ++
         ((if decide (1e-9 < dis) && !st.last_was_discharging
           then ["BATTERY DISCHARGE START"] else []) ++
          (if n < -1e-9 ∧ b + 1e-6 < rmin (rmax 0 sr) c.batteryCapKwh
           then ["WARNING"] else []))))) := by
    simpa [post_step, List.append_assoc] using h
  rcases List.mem_append.1 h' with h0 | h'
  · exact Or.inl h0
  rcases List.mem_append.1 h' with h1 | h'
  · exact Or.inr (Or.inl (mem_ite_singleton h1).2)
  rcases List.mem_append.1 h' with h2 | h'
  · exact Or.inr (Or.inr (Or.inl (mem_ite_singleton h2).2))
  rcases List.mem_append.1 h' with h3 | h'
  · exact Or.inr (Or.inr (Or.inr (Or.inl (mem_ite_singleton h3).2)))
  rcases List.mem_append.1 h' with h4 | h5
  · exact Or.inr (Or.inr (Or.inr (Or.inr (Or.inl (mem_ite_singleton h4).2))))
  · have := mem_ite_singleton h5
    exact Or.inr (Or.inr (Or.inr (Or.inr (Or.inr ⟨this.2, this.1⟩))))

/-- Claim C1 (code-bug evaluation): under `produce_priority` the monthly
export accumulator blows through the quota.  With `GRID_EXPORT_LIMIT = 20`
and three consecutive half-hour surplus steps of net +8 kWh each (16 kW
solar, zero load) starting from a fresh month, `month_exported_kwh` reaches
24 kWh with no `MONTH RESET` in between — exceeding the 20 kWh monthly cap
by far more than the claimed 1e-6 tolerance, because the `produce_priority`
branch (lines 185-213) checks `can_export_to_grid` but, unlike the other
two strategies, never caps the exported amount by `remaining_monthly_kwh`. -/
theorem produce_priority_exceeds_monthly_quota :
    (getD (run_steps cfgC1 30 "produce_priority" 30 initC1 samplesC1)).s.month_exported_kwh
      = 24 ∧
    okB (run_steps cfgC1 30 "produce_priority" 30 initC1 samplesC1) = true ∧
    cfgC1.gridExportLimit + 1e-6 < 24 :=
  of_decide_eq_true (by with_unfolding_all rfl)

/-- Claim C4 (counterexample): a timestep IS executed with an unknown
strategy.  With strategy `"mystery_strategy"` — not one of the three valid
values — a deficit step (zero solar, 2 kW load) runs to completion and
returns a log record instead of raising: the `ValueError` of line 216 lives
inside the surplus dispatcher and no validation runs before the simulation. -/
theorem unknown_strategy_deficit_step_executes :
    okB (step cfgC4 "mystery_strategy" stC4 0 2 true (1/2)) = true ∧
    "mystery_strategy" ∉ ["load_priority", "charge_priority", "produce_priority"] :=
  of_decide_eq_true (by with_unfolding_all rfl)

/-- Claim C4 (amended): an unrecognized dispatch strategy raises the fatal
`ValueError` only when the first surplus step reaches
`_apply_strategy_surplus`; any surplus step under an unknown strategy
errors with `Unknown strategy: <name>` rather than producing outputs,
while deficit steps execute normally and nothing is checked before the run. -/
theorem unknown_strategy_surplus_step_errors (c : Cfg) (strategy : String)
    (st : StepState) (solar_kw load_kw : ℚ) (inverter_is_ok : Bool) (dt_h : ℚ)
    (h1 : strategy ≠ "load_priority") (h2 : strategy ≠ "charge_priority")
    (h3 : strategy ≠ "produce_priority")
    (hnet : 0 < (if inverter_is_ok then rmin solar_kw c.inverterMaxKw else 0) * dt_h
              - load_kw * dt_h) :
    step c strategy st solar_kw load_kw inverter_is_ok dt_h =
      .error ("Unknown strategy: " ++ strategy) := by
  have hs : apply_strategy_surplus c strategy st.battery_soc st.month_exported_kwh
      ((if inverter_is_ok then rmin solar_kw c.inverterMaxKw else 0) * dt_h
        - load_kw * dt_h) dt_h = .error ("Unknown strategy: " ++ strategy) := by
    unfold apply_strategy_surplus
    rw [if_neg h1, if_neg h2, if_neg h3]
  unfold step step_core
  rw [if_pos hnet, hs]

/-- Witness for the amended C4: the concrete surplus step (3 kW solar, zero
load) under strategy `"mystery_strategy"` errors out. -/
theorem unknown_strategy_surplus_step_errors_witness :
    step cfgC4 "mystery_strategy" stC4 3 0 true (1/2) =
      .error ("Unknown strategy: " ++ "mystery_strategy") :=
  unknown_strategy_surplus_step_errors cfgC4 "mystery_strategy" stC4 3 0 true (1/2)
    (of_decide_eq_true (by with_unfolding_all rfl))
    (of_decide_eq_true (by with_unfolding_all rfl))
    (of_decide_eq_true (by with_unfolding_all rfl))
    (of_decide_eq_true (by with_unfolding_all rfl))

/-- Both completions of `step_core` clamp the battery into `[0, capacity]`. -/
theorem step_core_soc_bounds (c : Cfg) (strategy : String) (st : StepState)
    (net_kwh dt_h : ℚ) (hcap : 0 ≤ c.batteryCapKwh) (o : StepOut)
    (h : step_core c strategy st net_kwh dt_h = .ok o) :
    0 ≤ o.state.battery_soc ∧ o.state.battery_soc ≤ c.batteryCapKwh := by
  simp only [step_core] at h
  split at h
  · split at h
    · exact absurd h (by simp)
    · rw [Except.ok.injEq] at h
      subst h
      rw [post_step_soc, rmin_eq_min, rmax_eq_max]
      exact ⟨le_min (le_max_left 0 _) hcap, min_le_right _ _⟩
  · rw [Except.ok.injEq] at h
    subst h
    rw [post_step_soc, rmin_eq_min, rmax_eq_max]
    exact ⟨le_min (le_max_left 0 _) hcap, min_le_right _ _⟩

/-- Claim C3: at the end of every completed step, whatever the strategy,
inputs or branch, the battery state of charge satisfies
`0 ≤ battery_soc ≤ BATTERY_CAP_KWH` — the clamp of line 298. -/
theorem soc_within_bounds (c : Cfg) (strategy : String) (st : StepState)
    (solar_kw load_kw : ℚ) (inverter_is_ok : Bool) (dt_h : ℚ)
    (hcap : 0 ≤ c.batteryCapKwh) (o : StepOut)
    (h : step c strategy st solar_kw load_kw inverter_is_ok dt_h = .ok o) :
    0 ≤ o.state.battery_soc ∧ o.state.battery_soc ≤ c.batteryCapKwh := by
  rw [step_as_core] at h
  exact step_core_soc_bounds c strategy st _ dt_h hcap o h

/-- With unit efficiency, `load_priority` splits the surplus exactly into
charged + exported + curtailed, up to the `1e-9` epsilon swallowed by the
leftover guard of line 147. -/
theorem load_priority_balance_eta_one (c : Cfg) (soc m net dt_h : ℚ)
    (heta : c.eta = 1) :
    0 ≤ net - ((load_priority_surplus c soc m net dt_h).battery_charged_kwh +
      (load_priority_surplus c soc m net dt_h).grid_export_kwh +
      (load_priority_surplus c soc m net dt_h).curtailed_kwh) ∧
    net - ((load_priority_surplus c soc m net dt_h).battery_charged_kwh +
      (load_priority_surplus c soc m net dt_h).grid_export_kwh +
      (load_priority_surplus c soc m net dt_h).curtailed_kwh) ≤ 1e-9 := by
  have hci : rmin net (c.batteryCapKwh - soc) ≤ net := by
    rw [rmin_eq_min]; exact min_le_left _ _
  simp only [load_priority_surplus, heta, mul_one, div_one]
  split_ifs <;> dsimp only <;> simp only [not_lt] at * <;>
    constructor <;> linarith [hci]

/-- With unit efficiency, `charge_priority` also balances: when the leftover
exceeds the epsilon the battery is necessarily full (`soc1 = capacity`), so
the 99%-gate of line 171 is open and the leftover is exported or curtailed. -/
theorem charge_priority_balance_eta_one (c : Cfg) (soc m net dt_h : ℚ)
    (heta : c.eta = 1) (hcap : 0 ≤ c.batteryCapKwh) :
    0 ≤ net - ((charge_priority_surplus c soc m net dt_h).battery_charged_kwh +
      (charge_priority_surplus c soc m net dt_h).grid_export_kwh +
      (charge_priority_surplus c soc m net dt_h).curtailed_kwh) ∧
    net - ((charge_priority_surplus c soc m net dt_h).battery_charged_kwh +
      (charge_priority_surplus c soc m net dt_h).grid_export_kwh +
      (charge_priority_surplus c soc m net dt_h).curtailed_kwh) ≤ 1e-9 := by
  have hci : rmin net (c.batteryCapKwh - soc) ≤ net := by
    rw [rmin_eq_min]; exact min_le_left _ _
  simp only [charge_priority_surplus, heta, mul_one, div_one]
  by_cases hc : (1e-9 < net - rmin net (c.batteryCapKwh - soc) ∧
      c.batteryCapKwh * 0.99 ≤ soc + rmin net (c.batteryCapKwh - soc))
  · rw [if_pos hc]
    split_ifs <;> dsimp only <;> constructor <;> linarith
  · rw [if_neg hc]
    dsimp only
    rcases not_and_or.mp hc with hl | hs
    · rw [not_lt] at hl
      constructor <;> linarith
    · by_cases hl : (1e-9 : ℚ) < net - rmin net (c.batteryCapKwh - soc)
      · exfalso
        have h9 : (0:ℚ) < 1e-9 := by norm_num
        have hlt : rmin net (c.batteryCapKwh - soc) < net := by linarith
        have hmeq : rmin net (c.batteryCapKwh - soc) = c.batteryCapKwh - soc := by
          rw [rmin_eq_min] at hlt ⊢
          rcases min_cases net (c.batteryCapKwh - soc) with ⟨hq, _⟩ | ⟨hq, _⟩
          · rw [hq] at hlt
            exact absurd hlt (lt_irrefl _)
          · exact hq
        rw [hmeq] at hs
        exact hs (by linarith)
      · rw [not_lt] at hl
        constructor <;> linarith

/-- With unit efficiency, `produce_priority` balances exactly in all three
of its arms (export-capped, export-all, quota-exhausted). -/
theorem produce_priority_balance_eta_one (c : Cfg) (soc m net dt_h : ℚ)
    (heta : c.eta = 1) :
    0 ≤ net - ((produce_priority_surplus c soc m net dt_h).battery_charged_kwh +
      (produce_priority_surplus c soc m net dt_h).grid_export_kwh +
      (produce_priority_surplus c soc m net dt_h).curtailed_kwh) ∧
    net - ((produce_priority_surplus c soc m net dt_h).battery_charged_kwh +
      (produce_priority_surplus c soc m net dt_h).grid_export_kwh +
      (produce_priority_surplus c soc m net dt_h).curtailed_kwh) ≤ 1e-9 := by
  simp only [produce_priority_surplus, heta, mul_one, div_one]
  split_ifs <;> dsimp only <;> constructor <;> linarith

/-- With unit round-trip efficiency, the deficit branch balances: the need
is met by discharge plus import up to the `1e-9` epsilon of line 288. -/
theorem apply_deficit_balance_eta_one (c : Cfg) (soc net : ℚ)
    (hrt : c.roundTrip = 1) (heta : c.eta = 1) :
    0 ≤ -net - ((apply_deficit c soc net).battery_discharged_kwh +
      (apply_deficit c soc net).grid_import_kwh) ∧
    -net - ((apply_deficit c soc net).battery_discharged_kwh +
      (apply_deficit c soc net).grid_import_kwh) ≤ 1e-9 := by
  have h01 : (0:ℚ) < c.roundTrip := by rw [hrt]; norm_num
  have hd : rmin (-net) (rmax 0 (soc - c.batteryCapKwh * c.minSocFrac)) ≤ -net := by
    rw [rmin_eq_min]; exact min_le_left _ _
  simp only [apply_deficit, h01, if_true, heta, div_one, mul_one]
  split_ifs <;> (try simp only [not_lt] at *) <;>
    constructor <;> linarith [hd]

/-- With unit round-trip efficiency, every completed `step_core` satisfies
the (sign-corrected) energy balance to within `1e-6`. -/
theorem step_core_balance_eta_one (c : Cfg) (strategy : String) (st : StepState)
    (net_kwh dt_h : ℚ) (hrt : c.roundTrip = 1) (heta : c.eta = 1)
    (hcap : 0 ≤ c.batteryCapKwh) (o : StepOut)
    (h : step_core c strategy st net_kwh dt_h = .ok o) :
    |o.net_kwh - (o.battery_charged_kwh - o.battery_discharged_kwh
      - o.grid_import_kwh + o.grid_export_kwh + o.curtailed_kwh)| ≤ 1e-6 := by
  have heps : (1e-9 : ℚ) ≤ 1e-6 := by norm_num
  simp only [step_core] at h
  split at h
  · rcases hsr : apply_strategy_surplus c strategy st.battery_soc
        st.month_exported_kwh net_kwh dt_h with e | so
    · rw [hsr] at h; exact absurd h (by simp)
    · rw [hsr] at h
      simp only [] at h
      rw [Except.ok.injEq] at h
      subst h
      simp only [apply_strategy_surplus] at hsr
      split_ifs at hsr with s1 s2 s3
      · rw [Except.ok.injEq] at hsr
        subst hsr
        have hb := load_priority_balance_eta_one c st.battery_soc
          st.month_exported_kwh net_kwh dt_h heta
        rw [post_step_net, post_step_charged, post_step_discharged,
          post_step_import, post_step_export, post_step_curtailed, abs_le]
        constructor <;> linarith [hb.1, hb.2]
      · rw [Except.ok.injEq] at hsr
        subst hsr
        have hb := charge_priority_balance_eta_one c st.battery_soc
          st.month_exported_kwh net_kwh dt_h heta hcap
        rw [post_step_net, post_step_charged, post_step_discharged,
          post_step_import, post_step_export, post_step_curtailed, abs_le]
        constructor <;> linarith [hb.1, hb.2]
      · rw [Except.ok.injEq] at hsr
        subst hsr
        have hb := produce_priority_balance_eta_one c st.battery_soc
          st.month_exported_kwh net_kwh dt_h heta
        rw [post_step_net, post_step_charged, post_step_discharged,
          post_step_import, post_step_export, post_step_curtailed, abs_le]
        constructor <;> linarith [hb.1, hb.2]
  · rw [Except.ok.injEq] at h
    subst h
    have hb := apply_deficit_balance_eta_one c st.battery_soc net_kwh hrt heta
    rw [post_step_net, post_step_charged, post_step_discharged,
      post_step_import, post_step_export, post_step_curtailed, abs_le]
    constructor <;> linarith [hb.1, hb.2]

/-- Claim C2 (counterexample): the balance formula exactly as the claim and
spec state it — `net = charged - discharged + import - export - curtailed` —
fails by 1.3 kWh on a concrete deficit step with `round_trip_efficiency =
1.0` (zero solar, 2 kW load, half-hour step, battery 0.35 kWh above the
floor): the code yields `discharged = 0.35`, `import = 0.65`, `net = -1`,
so the claimed right-hand side is `+0.3`, not `-1`. -/
theorem spec_balance_formula_counterexample :
    1e-6 < spec_claimed_balance_gap (step cfgC2 "load_priority" stC2 0 2 true (1/2)) ∧
    okB (step cfgC2 "load_priority" stC2 0 2 true (1/2)) = true :=
  of_decide_eq_true (by with_unfolding_all rfl)

/-- Claim C2 (amended): for every completed timestep with
`round_trip_efficiency = 1.0` (so `eta = 1`), the step outputs satisfy the
energy balance with the import/export/curtailment signs corrected:
`net_kwh = battery_charged_kwh - battery_discharged_kwh - grid_import_kwh +
grid_export_kwh + curtailed_kwh` to within `1e-6`, in both the surplus and
the deficit branch. -/
theorem energy_balance_unit_roundtrip (c : Cfg) (strategy : String)
    (st : StepState) (solar_kw load_kw : ℚ) (inverter_is_ok : Bool) (dt_h : ℚ)
    (hrt : c.roundTrip = 1) (heta : c.eta = 1) (hcap : 0 ≤ c.batteryCapKwh)
    (o : StepOut)
    (h : step c strategy st solar_kw load_kw inverter_is_ok dt_h = .ok o) :
    |o.net_kwh - (o.battery_charged_kwh - o.battery_discharged_kwh
      - o.grid_import_kwh + o.grid_export_kwh + o.curtailed_kwh)| ≤ 1e-6 := by
  rw [step_as_core] at h
  exact step_core_balance_eta_one c strategy st _ dt_h hrt heta hcap o h

/-- Witness for the amended C2 at a concrete deficit step. -/
theorem energy_balance_unit_roundtrip_witness :
    |(getD (step cfgC2 "load_priority" stC2 0 2 true (1/2))).net_kwh -
      ((getD (step cfgC2 "load_priority" stC2 0 2 true (1/2))).battery_charged_kwh -
       (getD (step cfgC2 "load_priority" stC2 0 2 true (1/2))).battery_discharged_kwh -
       (getD (step cfgC2 "load_priority" stC2 0 2 true (1/2))).grid_import_kwh +
       (getD (step cfgC2 "load_priority" stC2 0 2 true (1/2))).grid_export_kwh +
       (getD (step cfgC2 "load_priority" stC2 0 2 true (1/2))).curtailed_kwh)| ≤ 1e-6 :=
  energy_balance_unit_roundtrip cfgC2 "load_priority" stC2 0 2 true (1/2)
    (of_decide_eq_true (by with_unfolding_all rfl))
    (of_decide_eq_true (by with_unfolding_all rfl))
    (of_decide_eq_true (by with_unfolding_all rfl))
    (getD (step cfgC2 "load_priority" stC2 0 2 true (1/2)))
    (by with_unfolding_all rfl)

/-- Witness for C3 at a concrete surplus step. -/
theorem soc_within_bounds_witness :
    0 ≤ (getD (step cfgC4 "load_priority" stC4 3 0 true (1/2))).state.battery_soc ∧
    (getD (step cfgC4 "load_priority" stC4 3 0 true (1/2))).state.battery_soc ≤
      cfgC4.batteryCapKwh :=
  soc_within_bounds cfgC4 "load_priority" stC4 3 0 true (1/2)
    (of_decide_eq_true (by with_unfolding_all rfl))
    (getD (step cfgC4 "load_priority" stC4 3 0 true (1/2)))
    (by with_unfolding_all rfl)

/-- A completed `step_core` reports exactly the net energy it was given. -/
theorem step_core_net (c : Cfg) (strategy : String) (st : StepState)
    (net_kwh dt_h : ℚ) (o : StepOut)
    (h : step_core c strategy st net_kwh dt_h = .ok o) : o.net_kwh = net_kwh := by
  simp only [step_core] at h
  split at h
  · rcases hsr : apply_strategy_surplus c strategy st.battery_soc
        st.month_exported_kwh net_kwh dt_h with e | so
    · rw [hsr] at h; exact absurd h (by simp)
    · rw [hsr] at h
      simp only [] at h
      rw [Except.ok.injEq] at h
      subst h
      exact post_step_net ..
  · rw [Except.ok.injEq] at h
    subst h
    exact post_step_net ..

/-- On a non-positive net, `step_core` is the deficit branch followed by the
post-step bookkeeping. -/
theorem step_core_deficit_eq (c : Cfg) (strategy : String) (st : StepState)
    (net_kwh dt_h : ℚ) (o : StepOut)
    (h : step_core c strategy st net_kwh dt_h = .ok o) (hnet : net_kwh ≤ 0) :
    o = post_step c st st.battery_soc net_kwh
      (apply_deficit c st.battery_soc net_kwh).battery_soc st.month_exported_kwh
      0 (apply_deficit c st.battery_soc net_kwh).battery_discharged_kwh
      (apply_deficit c st.battery_soc net_kwh).grid_import_kwh 0 0
      (apply_deficit c st.battery_soc net_kwh).unmet_load_kwh
      (apply_deficit c st.battery_soc net_kwh).events := by
  simp only [step_core] at h
  split at h
  · rename_i hpos
    exact absurd hnet (not_le.mpr hpos)
  · rw [Except.ok.injEq] at h
    exact h.symm

/-- On a positive net with a successful dispatch, `step_core` is the surplus
branch followed by the post-step bookkeeping. -/
theorem step_core_surplus_eq (c : Cfg) (strategy : String) (st : StepState)
    (net_kwh dt_h : ℚ) (o : StepOut) (so : SurplusOut)
    (h : step_core c strategy st net_kwh dt_h = .ok o) (hnet : 0 < net_kwh)
    (hsr : apply_strategy_surplus c strategy st.battery_soc st.month_exported_kwh
      net_kwh dt_h = .ok so) :
    o = post_step c st st.battery_soc net_kwh so.battery_soc so.month_exported_kwh
      so.battery_charged_kwh 0 0 so.grid_export_kwh so.curtailed_kwh 0 so.events := by
  simp only [step_core, if_pos hnet, hsr] at h
  rw [Except.ok.injEq] at h
  exact h.symm

/-- Rounding a value in `[0, 1e-9]` to six decimals yields exactly 0. -/
theorem pyRound6_small (x : ℚ) (h0 : 0 ≤ x) (h1 : x ≤ 1e-9) : pyRound6 x = 0 := by
  unfold pyRound6
  have hr : round (x * 10 ^ 6) = 0 := by
    rw [round_eq]
    apply Int.floor_eq_zero_iff.mpr
    constructor
    · nlinarith
    · nlinarith
  rw [hr]
  norm_num

/-- The deficit branch's event list is governed by its unmet-load guard. -/
theorem apply_deficit_events_eq (c : Cfg) (soc net : ℚ) :
    (apply_deficit c soc net).events =
      (if 1e-9 < (apply_deficit c soc net).unmet_load_kwh
       then ["UNMET LOAD"] else []) := rfl

/-- The deficit branch's raw unmet load always lies in `[0, 1e-9]`: either
the residual exceeds the epsilon and is imported (unmet set to 0), or the
residual itself, which is nonnegative because the discharge never supplies
more than the need. -/
theorem apply_deficit_unmet_bounds (c : Cfg) (soc net : ℚ) (hnet : net ≤ 0)
    (heta : 0 < c.roundTrip → 0 < c.eta) :
    0 ≤ (apply_deficit c soc net).unmet_load_kwh ∧
    (apply_deficit c soc net).unmet_load_kwh ≤ 1e-9 := by
  simp only [apply_deficit]
  by_cases hrt : 0 < c.roundTrip
  · have hη := heta hrt
    have hsup : rmin (-net / c.eta) (rmax 0 (soc - c.batteryCapKwh * c.minSocFrac))
        * c.eta ≤ -net := by
      have h1 : rmin (-net / c.eta) (rmax 0 (soc - c.batteryCapKwh * c.minSocFrac))
          ≤ -net / c.eta := by
        rw [rmin_eq_min]; exact min_le_left _ _
      have h2 := mul_le_mul_of_nonneg_right h1 (le_of_lt hη)
      rwa [div_mul_cancel₀ _ (ne_of_gt hη)] at h2
    simp only [if_pos hrt]
    split_ifs with him
    · exact ⟨le_refl 0, by norm_num⟩
    · rw [not_lt] at him
      exact ⟨by linarith, him⟩
  · simp only [if_neg hrt]
    split_ifs with him
    · exact ⟨le_refl 0, by norm_num⟩
    · rw [not_lt] at him
      exact ⟨by linarith, him⟩

/-- The deficit branch never logs an `UNMET LOAD` event. -/
theorem apply_deficit_events_nil (c : Cfg) (soc net : ℚ) (hnet : net ≤ 0)
    (heta : 0 < c.roundTrip → 0 < c.eta) :
    (apply_deficit c soc net).events = [] := by
  rw [apply_deficit_events_eq,
    if_neg (not_lt.mpr (apply_deficit_unmet_bounds c soc net hnet heta).2)]

/-- The deficit branch's discharge, as a formula. -/
theorem apply_deficit_discharge_eq (c : Cfg) (soc net : ℚ) :
    (apply_deficit c soc net).battery_discharged_kwh =
      (if 0 < c.roundTrip
       then rmin (-net / c.eta) (rmax 0 (soc - c.batteryCapKwh * c.minSocFrac))
       else 0) := rfl

/-- The deficit branch's grid import equals the residual need whenever that
residual exceeds the `1e-9` epsilon, where the residual is the need minus
the energy the discharge supplied (`discharged * eta`, which is 0 whenever
the discharge is 0). -/
theorem apply_deficit_import_eq (c : Cfg) (soc net : ℚ)
    (him : 1e-9 < -net - (apply_deficit c soc net).battery_discharged_kwh * c.eta) :
    (apply_deficit c soc net).grid_import_kwh =
      -net - (apply_deficit c soc net).battery_discharged_kwh * c.eta := by
  rw [apply_deficit_discharge_eq] at him ⊢
  by_cases hrt : 0 < c.roundTrip
  · rw [if_pos hrt] at him ⊢
    simp only [apply_deficit, if_pos hrt]
    rw [if_pos him]
  · rw [if_neg hrt] at him ⊢
    rw [zero_mul] at him ⊢
    simp only [apply_deficit, if_neg hrt, sub_zero] at him ⊢
    rw [if_pos him]

/-- Claim C6: in every completed deficit step (`net_kwh ≤ 0`), the discharge
is `min(need / discharge_efficiency, available_above_floor)` when the
round-trip efficiency is positive (so `supplied = discharge * eta`); the
grid import equals the residual need whenever it exceeds `1e-9`; the unmet load
written to the log record is exactly 0; and no `UNMET LOAD` event is
emitted. -/
theorem deficit_step_spec (c : Cfg) (strategy : String) (st : StepState)
    (solar_kw load_kw : ℚ) (inverter_is_ok : Bool) (dt_h : ℚ)
    (heta : 0 < c.roundTrip → 0 < c.eta) (o : StepOut)
    (h : step c strategy st solar_kw load_kw inverter_is_ok dt_h = .ok o)
    (hnet : o.net_kwh ≤ 0) :
    (0 < c.roundTrip →
      o.battery_discharged_kwh =
        rmin (-o.net_kwh / c.eta)
          (rmax 0 (st.battery_soc - c.batteryCapKwh * c.minSocFrac))) ∧
    (1e-9 < -o.net_kwh - o.battery_discharged_kwh * c.eta →
      o.grid_import_kwh = -o.net_kwh - o.battery_discharged_kwh * c.eta) ∧
    o.logged_unmet_load_kwh = 0 ∧
    "UNMET LOAD" ∉ o.events := by
  rw [step_as_core] at h
  have hn := step_core_net c strategy st _ dt_h o h
  rw [hn] at hnet
  have ho := step_core_deficit_eq c strategy st _ dt_h o h hnet
  subst ho
  rw [post_step_net, post_step_discharged, post_step_import, post_step_logged_unmet]
  have hub := apply_deficit_unmet_bounds c st.battery_soc _ hnet heta
  refine ⟨?_, ?_, ?_, ?_⟩
  · intro hrt
    rw [apply_deficit_discharge_eq, if_pos hrt]
  · intro him
    exact apply_deficit_import_eq c st.battery_soc _ him
  · exact pyRound6_small _ hub.1 hub.2
  · intro hx
    rcases mem_post_step_events c st _ _ _ _ _ _ _ _ _ _ _ hx with
      h0 | h1 | h2 | h3 | h4 | ⟨h5, _⟩
    · rw [apply_deficit_events_nil c st.battery_soc _ hnet heta] at h0
      simp at h0
    · exact absurd h1 (by decide)
    · exact absurd h2 (by decide)
    · exact absurd h3 (by decide)
    · exact absurd h4 (by decide)
    · exact absurd h5 (by decide)

/-- Witness for C6 at a concrete deficit step (zero solar, 2 kW load). -/
theorem deficit_step_spec_witness :
    (0 < cfgC2.roundTrip →
      (getD (step cfgC2 "load_priority" stC2 0 2 true (1/2))).battery_discharged_kwh =
        rmin (-(getD (step cfgC2 "load_priority" stC2 0 2 true (1/2))).net_kwh / cfgC2.eta)
          (rmax 0 (stC2.battery_soc - cfgC2.batteryCapKwh * cfgC2.minSocFrac))) ∧
    (1e-9 < -(getD (step cfgC2 "load_priority" stC2 0 2 true (1/2))).net_kwh -
        (getD (step cfgC2 "load_priority" stC2 0 2 true (1/2))).battery_discharged_kwh
          * cfgC2.eta →
      (getD (step cfgC2 "load_priority" stC2 0 2 true (1/2))).grid_import_kwh =
        -(getD (step cfgC2 "load_priority" stC2 0 2 true (1/2))).net_kwh -
        (getD (step cfgC2 "load_priority" stC2 0 2 true (1/2))).battery_discharged_kwh
          * cfgC2.eta) ∧
    (getD (step cfgC2 "load_priority" stC2 0 2 true (1/2))).logged_unmet_load_kwh = 0 ∧
    "UNMET LOAD" ∉ (getD (step cfgC2 "load_priority" stC2 0 2 true (1/2))).events :=
  deficit_step_spec cfgC2 "load_priority" stC2 0 2 true (1/2)
    (fun _ => of_decide_eq_true (by with_unfolding_all rfl))
    (getD (step cfgC2 "load_priority" stC2 0 2 true (1/2)))
    (by with_unfolding_all rfl)
    (of_decide_eq_true (by with_unfolding_all rfl))

/-- With a zero export rate limit, the `produce_priority` arm exports
nothing on any surplus: either some quota remains and the export is capped
at `GRID_EXPORT_LIMIT * dt_h = 0`, or no quota remains and the arm only
charges and curtails. -/
theorem produce_priority_zero_limit_export (c : Cfg) (soc m net dt_h : ℚ)
    (hlim : c.gridExportLimit = 0) (hnet : 0 < net) :
    (produce_priority_surplus c soc m net dt_h).grid_export_kwh = 0 := by
  simp only [produce_priority_surplus, hlim, zero_mul]
  by_cases h1 : (0:ℚ) < rmax 0 (0 - m)
  · rw [if_pos h1, if_pos hnet]
  · rw [if_neg h1]

/-- The dispatcher resolves the literal `load_priority` string. -/
theorem apply_strategy_surplus_load (c : Cfg) (soc m net dt_h : ℚ) :
    apply_strategy_surplus c "load_priority" soc m net dt_h =
      .ok (load_priority_surplus c soc m net dt_h) := by
  with_unfolding_all rfl

/-- The dispatcher resolves the literal `charge_priority` string. -/
theorem apply_strategy_surplus_charge (c : Cfg) (soc m net dt_h : ℚ) :
    apply_strategy_surplus c "charge_priority" soc m net dt_h =
      .ok (charge_priority_surplus c soc m net dt_h) := by
  with_unfolding_all rfl

/-- The dispatcher resolves the literal `produce_priority` string. -/
theorem apply_strategy_surplus_produce (c : Cfg) (soc m net dt_h : ℚ) :
    apply_strategy_surplus c "produce_priority" soc m net dt_h =
      .ok (produce_priority_surplus c soc m net dt_h) := by
  with_unfolding_all rfl

/-- Claim C7: when `GRID_EXPORT_LIMIT = 0`, every completed step under the
`produce_priority` strategy reports `grid_export_kwh = 0`, whatever the
surplus size (and trivially on deficit steps, whose export is always 0). -/
theorem zero_export_limit_produce_priority (c : Cfg) (st : StepState)
    (solar_kw load_kw : ℚ) (inverter_is_ok : Bool) (dt_h : ℚ)
    (hlim : c.gridExportLimit = 0) (o : StepOut)
    (h : step c "produce_priority" st solar_kw load_kw inverter_is_ok dt_h = .ok o) :
    o.grid_export_kwh = 0 := by
  rw [step_as_core] at h
  by_cases hnet : 0 < (if inverter_is_ok then rmin solar_kw c.inverterMaxKw else 0)
      * dt_h - load_kw * dt_h
  · rcases hsr : apply_strategy_surplus c "produce_priority" st.battery_soc
        st.month_exported_kwh ((if inverter_is_ok then rmin solar_kw c.inverterMaxKw
          else 0) * dt_h - load_kw * dt_h) dt_h with e | so
    · simp only [step_core, if_pos hnet, hsr] at h
      exact absurd h (by simp)
    · have ho := step_core_surplus_eq c "produce_priority" st _ dt_h o so h hnet hsr
      subst ho
      rw [post_step_export]
      rw [apply_strategy_surplus_produce, Except.ok.injEq] at hsr
      rw [← hsr]
      exact produce_priority_zero_limit_export c st.battery_soc
        st.month_exported_kwh _ dt_h hlim hnet
  · have ho := step_core_deficit_eq c "produce_priority" st _ dt_h o h (not_lt.mp hnet)
    subst ho
    rw [post_step_export]

/-- Witness for C7 at a concrete surplus step (3 kW solar, zero load). -/
theorem zero_export_limit_produce_priority_witness :
    (getD (step cfgC7 "produce_priority" stC4 3 0 true (1/2))).grid_export_kwh = 0 :=
  zero_export_limit_produce_priority cfgC7 stC4 3 0 true (1/2) rfl
    (getD (step cfgC7 "produce_priority" stC4 3 0 true (1/2)))
    (by with_unfolding_all rfl)

/-- Every successful surplus dispatch leaves the SoC no lower than before:
the stored energy `charge_input * eta` is nonnegative in every arm. -/
theorem surplus_soc_ge (c : Cfg) (strategy : String) (soc m net dt_h : ℚ)
    (so : SurplusOut) (heta : 0 < c.eta) (hsoc : soc ≤ c.batteryCapKwh)
    (hnet : 0 < net)
    (hsr : apply_strategy_surplus c strategy soc m net dt_h = .ok so) :
    soc ≤ so.battery_soc := by
  have hsp : 0 ≤ (c.batteryCapKwh - soc) / c.eta :=
    div_nonneg (by linarith) heta.le
  simp only [apply_strategy_surplus] at hsr
  split_ifs at hsr <;> rw [Except.ok.injEq] at hsr <;> subst hsr
  · have h0 : 0 ≤ rmin net ((c.batteryCapKwh - soc) / c.eta) * c.eta := by
      refine mul_nonneg ?_ heta.le
      rw [rmin_eq_min]
      exact le_min hnet.le hsp
    simp only [load_priority_surplus]
    split_ifs <;> dsimp only <;> linarith
  · have h0 : 0 ≤ rmin net ((c.batteryCapKwh - soc) / c.eta) * c.eta := by
      refine mul_nonneg ?_ heta.le
      rw [rmin_eq_min]
      exact le_min hnet.le hsp
    simp only [charge_priority_surplus]
    split_ifs <;> dsimp only <;> linarith
  · have h0 : 0 ≤ rmin net ((c.batteryCapKwh - soc) / c.eta) * c.eta := by
      refine mul_nonneg ?_ heta.le
      rw [rmin_eq_min]
      exact le_min hnet.le hsp
    simp only [produce_priority_surplus]
    split_ifs with p1 p2 p3
    · have h1 : 0 ≤ rmin (net - c.gridExportLimit * dt_h)
          ((c.batteryCapKwh - soc) / c.eta) * c.eta := by
        refine mul_nonneg ?_ heta.le
        rw [rmin_eq_min]
        exact le_min (by linarith) hsp
      dsimp only
      linarith
    · dsimp only
      exact le_rfl
    · dsimp only
      linarith
    · dsimp only
      linarith

/-- The deficit branch never draws the battery below the usable floor:
the discharge is capped at `max 0 (soc - floor)`. -/
theorem apply_deficit_soc_ge_floor (c : Cfg) (soc net : ℚ)
    (hfloor : c.batteryCapKwh * c.minSocFrac ≤ soc) :
    c.batteryCapKwh * c.minSocFrac ≤ (apply_deficit c soc net).battery_soc := by
  simp only [apply_deficit]
  split_ifs with hrt
  · have h1 : rmin (-net / c.eta) (rmax 0 (soc - c.batteryCapKwh * c.minSocFrac))
        ≤ soc - c.batteryCapKwh * c.minSocFrac := by
      rw [rmin_eq_min, rmax_eq_max]
      exact le_trans (min_le_right _ _) (max_le (by linarith) le_rfl)
    linarith
  · linarith

/-- Claim C9: if the SoC starts at or above the usable floor
`BATTERY_CAP_KWH * BATTERY_MIN_SOC_FRAC`, it is still at or above the floor
at the end of every completed step: the deficit branch discharges only
energy above the floor, and the surplus branch never reduces SoC. -/
theorem soc_floor_preserved (c : Cfg) (strategy : String) (st : StepState)
    (solar_kw load_kw : ℚ) (inverter_is_ok : Bool) (dt_h : ℚ)
    (heta : 0 < c.eta)
    (hfloor : c.batteryCapKwh * c.minSocFrac ≤ st.battery_soc)
    (hsoc : st.battery_soc ≤ c.batteryCapKwh) (o : StepOut)
    (h : step c strategy st solar_kw load_kw inverter_is_ok dt_h = .ok o) :
    c.batteryCapKwh * c.minSocFrac ≤ o.state.battery_soc := by
  rw [step_as_core] at h
  by_cases hnet : 0 < (if inverter_is_ok then rmin solar_kw c.inverterMaxKw else 0)
      * dt_h - load_kw * dt_h
  · rcases hsr : apply_strategy_surplus c strategy st.battery_soc
        st.month_exported_kwh ((if inverter_is_ok then rmin solar_kw c.inverterMaxKw
          else 0) * dt_h - load_kw * dt_h) dt_h with e | so
    · simp only [step_core, if_pos hnet, hsr] at h
      exact absurd h (by simp)
    · have hge := surplus_soc_ge c strategy st.battery_soc st.month_exported_kwh
        _ dt_h so heta hsoc hnet hsr
      have ho := step_core_surplus_eq c strategy st _ dt_h o so h hnet hsr
      subst ho
      rw [post_step_soc, rmin_eq_min, rmax_eq_max]
      refine le_min (le_trans (le_trans hfloor hge) (le_max_right 0 _)) ?_
      exact le_trans hfloor hsoc
  · have ho := step_core_deficit_eq c strategy st _ dt_h o h (not_lt.mp hnet)
    subst ho
    rw [post_step_soc, rmin_eq_min, rmax_eq_max]
    refine le_min ?_ (le_trans hfloor hsoc)
    exact le_trans (apply_deficit_soc_ge_floor c st.battery_soc _ hfloor)
      (le_max_right 0 _)

/-- Witness for C9 at a concrete deficit step starting exactly at the floor. -/
theorem soc_floor_preserved_witness :
    cfgC2.batteryCapKwh * cfgC2.minSocFrac ≤
      (getD (step cfgC2 "load_priority" stC9 0 2 true (1/2))).state.battery_soc :=
  soc_floor_preserved cfgC2 "load_priority" stC9 0 2 true (1/2)
    (of_decide_eq_true (by with_unfolding_all rfl))
    (of_decide_eq_true (by with_unfolding_all rfl))
    (of_decide_eq_true (by with_unfolding_all rfl))
    (getD (step cfgC2 "load_priority" stC9 0 2 true (1/2)))
    (by with_unfolding_all rfl)

/-- The deficit branch's discharge is nonnegative. -/
theorem apply_deficit_discharge_nonneg (c : Cfg) (soc net : ℚ)
    (hnet : net ≤ 0) (heta : 0 ≤ c.eta) :
    0 ≤ (apply_deficit c soc net).battery_discharged_kwh := by
  rw [apply_deficit_discharge_eq]
  split_ifs with hrt
  · rw [rmin_eq_min]
    refine le_min (div_nonneg (by linarith) heta) ?_
    rw [rmax_eq_max]
    exact le_max_left 0 _
  · exact le_rfl

/-- The deficit branch's post-discharge SoC, as a formula. -/
theorem apply_deficit_soc_eq (c : Cfg) (soc net : ℚ) :
    (apply_deficit c soc net).battery_soc =
      soc - (apply_deficit c soc net).battery_discharged_kwh := rfl

/-- The only event a successful surplus dispatch can log is a solar
curtailment. -/
theorem surplus_events_curtail_only (c : Cfg) (strategy : String)
    (soc m net dt_h : ℚ) (so : SurplusOut)
    (hsr : apply_strategy_surplus c strategy soc m net dt_h = .ok so)
    {x : String} (hx : x ∈ so.events) : x = "SOLAR CURTAILMENT" := by
  simp only [apply_strategy_surplus] at hsr
  split_ifs at hsr <;> rw [Except.ok.injEq] at hsr <;> subst hsr <;> revert hx
  · simp only [load_priority_surplus]
    split_ifs <;> intro hx <;>
      first
        | exact absurd hx (List.not_mem_nil x)
        | exact List.mem_singleton.mp hx
  · simp only [charge_priority_surplus]
    split_ifs <;> intro hx <;>
      first
        | exact absurd hx (List.not_mem_nil x)
        | exact List.mem_singleton.mp hx
  · simp only [produce_priority_surplus]
    split_ifs <;> intro hx <;>
      first
        | exact absurd hx (List.not_mem_nil x)
        | exact List.mem_singleton.mp hx

/-- Claim C10: on every completed deficit step (`net_kwh ≤ 0`) the SoC at
the end of the step is no greater than at the start, and — in either
branch — the SoC-direction sanity check's `WARNING` event is never
emitted. -/
theorem deficit_no_soc_increase_no_warning (c : Cfg) (strategy : String)
    (st : StepState) (solar_kw load_kw : ℚ) (inverter_is_ok : Bool) (dt_h : ℚ)
    (hsoc : 0 ≤ st.battery_soc) (heta : 0 ≤ c.eta) (o : StepOut)
    (h : step c strategy st solar_kw load_kw inverter_is_ok dt_h = .ok o) :
    (o.net_kwh ≤ 0 → o.state.battery_soc ≤ st.battery_soc) ∧
    "WARNING" ∉ o.events := by
  rw [step_as_core] at h
  by_cases hnet : 0 < (if inverter_is_ok then rmin solar_kw c.inverterMaxKw else 0)
      * dt_h - load_kw * dt_h
  · rcases hsr : apply_strategy_surplus c strategy st.battery_soc
        st.month_exported_kwh ((if inverter_is_ok then rmin solar_kw c.inverterMaxKw
          else 0) * dt_h - load_kw * dt_h) dt_h with e | so
    · simp only [step_core, if_pos hnet, hsr] at h
      exact absurd h (by simp)
    · have ho := step_core_surplus_eq c strategy st _ dt_h o so h hnet hsr
      subst ho
      constructor
      · intro hle
        rw [post_step_net] at hle
        linarith
      · intro hx
        rcases mem_post_step_events c st _ _ _ _ _ _ _ _ _ _ _ hx with
          h0 | h1 | h2 | h3 | h4 | ⟨_, hg, _⟩
        · exact absurd (surplus_events_curtail_only c strategy st.battery_soc
            st.month_exported_kwh _ dt_h so hsr h0) (by decide)
        · exact absurd h1 (by decide)
        · exact absurd h2 (by decide)
        · exact absurd h3 (by decide)
        · exact absurd h4 (by decide)
        · linarith
  · have hle0 := not_lt.mp hnet
    have ho := step_core_deficit_eq c strategy st _ dt_h o h hle0
    subst ho
    have hd0 := apply_deficit_discharge_nonneg c st.battery_soc _ hle0 heta
    have hsocle : rmin (rmax 0 ((apply_deficit c st.battery_soc
        ((if inverter_is_ok then rmin solar_kw c.inverterMaxKw else 0) * dt_h
          - load_kw * dt_h)).battery_soc)) c.batteryCapKwh ≤ st.battery_soc := by
      rw [rmin_eq_min, rmax_eq_max]
      refine le_trans (min_le_left _ _) (max_le hsoc ?_)
      rw [apply_deficit_soc_eq]
      linarith
    constructor
    · intro _
      rw [post_step_soc]
      exact hsocle
    · intro hx
      rcases mem_post_step_events c st _ _ _ _ _ _ _ _ _ _ _ hx with
        h0 | h1 | h2 | h3 | h4 | ⟨_, _, hg2⟩
      · rw [apply_deficit_events_eq] at h0
        exact absurd (mem_ite_singleton h0).2 (by decide)
      · exact absurd h1 (by decide)
      · exact absurd h2 (by decide)
      · exact absurd h3 (by decide)
      · exact absurd h4 (by decide)
      · have h6 : (0:ℚ) < 1e-6 := by norm_num
        linarith

/-- The `load_priority` arm always charges `min(net, headroom/eta) * eta`. -/
theorem load_priority_charged_eq (c : Cfg) (soc m net dt_h : ℚ) :
    (load_priority_surplus c soc m net dt_h).battery_charged_kwh =
      rmin net ((c.batteryCapKwh - soc) / c.eta) * c.eta := by
  simp only [load_priority_surplus]
  split_ifs <;> rfl

/-- The `load_priority` arm adds exactly the stored energy to the SoC. -/
theorem load_priority_soc_eq (c : Cfg) (soc m net dt_h : ℚ) :
    (load_priority_surplus c soc m net dt_h).battery_soc =
      soc + rmin net ((c.batteryCapKwh - soc) / c.eta) * c.eta := by
  simp only [load_priority_surplus]
  split_ifs <;> rfl

/-- When the leftover after charging is below the `1e-9` epsilon,
`load_priority` neither exports nor curtails. -/
theorem load_priority_no_leftover (c : Cfg) (soc m net dt_h : ℚ)
    (hl : ¬ (1e-9 < net - rmin net ((c.batteryCapKwh - soc) / c.eta))) :
    (load_priority_surplus c soc m net dt_h).grid_export_kwh = 0 ∧
    (load_priority_surplus c soc m net dt_h).curtailed_kwh = 0 := by
  simp only [load_priority_surplus]
  rw [if_neg hl]
  exact ⟨rfl, rfl⟩

/-- Claim C8: under `load_priority` with a surplus, charging follows
`charge_input = min(net_kwh, headroom/charge_efficiency)` with
`stored = charge_input * charge_efficiency` added to the SoC; and in the
spec's Scenario A (capacity 5 kWh, round-trip 0.9 so
`eta = sqrt 0.9 ∈ (0.94868, 0.94869)`, initial SoC 2.5 kWh, net +1 kWh,
unlimited export) the step stores `eta ≈ 0.9487` kWh, ends at
`2.5 + eta ≈ 3.4487` kWh, and neither exports nor curtails. -/
theorem load_priority_charging_scenarioA (c : Cfg) (soc m net dt_h : ℚ)
    (o : SurplusOut)
    (h : apply_strategy_surplus c "load_priority" soc m net dt_h = .ok o) :
    o.battery_charged_kwh = rmin net ((c.batteryCapKwh - soc) / c.eta) * c.eta ∧
    o.battery_soc = soc + o.battery_charged_kwh ∧
    (c.batteryCapKwh = 5 → soc = 2.5 → net = 1 →
      0.94868 ≤ c.eta → c.eta ≤ 0.94869 →
      o.battery_charged_kwh = c.eta ∧
      |o.battery_charged_kwh - 0.9487| ≤ 1e-4 ∧
      o.battery_soc = 2.5 + c.eta ∧
      |o.battery_soc - 3.4487| ≤ 1e-4 ∧
      o.grid_export_kwh = 0 ∧ o.curtailed_kwh = 0) := by
  rw [apply_strategy_surplus_load, Except.ok.injEq] at h
  subst h
  refine ⟨load_priority_charged_eq c soc m net dt_h, ?_, ?_⟩
  · rw [load_priority_charged_eq, load_priority_soc_eq]
  · intro hcap hsoc hnet h1 h2
    subst hsoc hnet
    have heps : (0:ℚ) < 0.94868 := by norm_num
    have heta : 0 < c.eta := by linarith
    have hmin : rmin 1 ((c.batteryCapKwh - 2.5) / c.eta) = 1 := by
      rw [rmin_eq_min]
      refine min_eq_left ?_
      rw [le_div_iff₀ heta, one_mul, hcap]
      linarith
    have hch : (load_priority_surplus c 2.5 m 1 dt_h).battery_charged_kwh = c.eta := by
      rw [load_priority_charged_eq, hmin, one_mul]
    have hsoc1 : (load_priority_surplus c 2.5 m 1 dt_h).battery_soc = 2.5 + c.eta := by
      rw [load_priority_soc_eq, hmin, one_mul]
    have hl : ¬ (1e-9 < 1 - rmin 1 ((c.batteryCapKwh - 2.5) / c.eta)) := by
      rw [hmin]
      norm_num
    have hec := load_priority_no_leftover c 2.5 m 1 dt_h hl
    refine ⟨hch, ?_, hsoc1, ?_, hec.1, hec.2⟩
    · rw [hch, abs_le]
      constructor <;> linarith
    · rw [hsoc1, abs_le]
      constructor <;> linarith

/-- Witness for C8: the concrete Scenario A with `eta = 0.948685`. -/
theorem load_priority_charging_scenarioA_witness :
    (getD (apply_strategy_surplus cfgC8 "load_priority" 2.5 0 1 (1/2))).battery_charged_kwh
      = cfgC8.eta ∧
    |(getD (apply_strategy_surplus cfgC8 "load_priority" 2.5 0 1 (1/2))).battery_charged_kwh
      - 0.9487| ≤ 1e-4 ∧
    (getD (apply_strategy_surplus cfgC8 "load_priority" 2.5 0 1 (1/2))).battery_soc
      = 2.5 + cfgC8.eta ∧
    |(getD (apply_strategy_surplus cfgC8 "load_priority" 2.5 0 1 (1/2))).battery_soc
      - 3.4487| ≤ 1e-4 ∧
    (getD (apply_strategy_surplus cfgC8 "load_priority" 2.5 0 1 (1/2))).grid_export_kwh = 0 ∧
    (getD (apply_strategy_surplus cfgC8 "load_priority" 2.5 0 1 (1/2))).curtailed_kwh = 0 :=
  (load_priority_charging_scenarioA cfgC8 2.5 0 1 (1/2)
    (getD (apply_strategy_surplus cfgC8 "load_priority" 2.5 0 1 (1/2)))
    (by with_unfolding_all rfl)).2.2 rfl rfl rfl
    (of_decide_eq_true (by with_unfolding_all rfl))
    (of_decide_eq_true (by with_unfolding_all rfl))

/-- Witness for C10 at a concrete deficit step. -/
theorem deficit_no_soc_increase_no_warning_witness :
    ((getD (step cfgC2 "load_priority" stC4 0 2 true (1/2))).net_kwh ≤ 0 →
      (getD (step cfgC2 "load_priority" stC4 0 2 true (1/2))).state.battery_soc ≤
        stC4.battery_soc) ∧
    "WARNING" ∉ (getD (step cfgC2 "load_priority" stC4 0 2 true (1/2))).events :=
  deficit_no_soc_increase_no_warning cfgC2 "load_priority" stC4 0 2 true (1/2)
    (of_decide_eq_true (by with_unfolding_all rfl))
    (of_decide_eq_true (by with_unfolding_all rfl))
    (getD (step cfgC2 "load_priority" stC4 0 2 true (1/2)))
    (by with_unfolding_all rfl)

end GreenGrid
